import Mathlib

/-! Shallow embedding of the `games` repository: the two fighting-game demo
variants (`updateFighter` in the base demo and in the blocking / force-field
demo), the health clamping of `security.ts` / `scene.ts`, the cubes demo
(`createCubes` and its keydown handler), the bow animation (`bowFighters`),
the special-ability cooldown logic of the `animate` loop, and the CI
build-output resolution step.

Numeric convention: JavaScript numbers are modelled as rationals (`ℚ`).
Angles that the code stores as multiples of `Math.PI` are kept in units of a
quarter turn (`rotZ4`, values of `k` meaning `k * Math.PI / 4`) or a half
turn (`rotY2`, `k * Math.PI / 2`); the transcendental attack-swing angle
`Math.sin(progress * Math.PI) * (Math.PI / 2)` is modelled by an arbitrary
parameter `sinQ : ℚ → ℚ`, since no verified property depends on its values.
Likewise `THREE.Box3.setFromObject`, which traverses the scene graph to
compute a world axis-aligned bounding box, is modelled by a parameter
`boxOf : Group → Box3` applied at exactly the program points where the code
calls it; the overlap test `Box3.intersectsBox` is transcribed from three.js.
-/

namespace Games

/-- A three.js `Vector3` restricted to the rational values the demos use. -/
structure Vec3 where
  x : ℚ
  y : ℚ
  z : ℚ
deriving DecidableEq

/-- A three.js `Box3`: an axis-aligned box given by its `min` and `max`
corners. -/
structure Box3 where
  min : Vec3
  max : Vec3
deriving DecidableEq

/-- Transcription of three.js `Box3.prototype.intersectsBox`: two
axis-aligned boxes overlap unless they are separated along one axis. -/
def Box3.intersectsBox (self b : Box3) : Bool :=
  !(decide (b.max.x < self.min.x) || decide (b.min.x > self.max.x) ||
    decide (b.max.y < self.min.y) || decide (b.min.y > self.max.y) ||
    decide (b.max.z < self.min.z) || decide (b.min.z > self.max.z))

/-- A named child of a fighter's `THREE.Group` (only named children can be
retrieved by `getObjectByName`, and only their rotations are ever mutated
through such lookups).  `rotX` is `rotation.x` (the attack swing stores an
opaque `sinQ` value there); `rotZ4` is `rotation.z` in units of `π/4` (the
blocking animation only ever writes `-π/4`, `0` or `π/4`). -/
structure Limb where
  name : String
  rotX : ℚ
  rotZ4 : Int
deriving DecidableEq

/-- The mutable state of a fighter's `THREE.Group` that the update loop
touches: `position.x`, `rotation.y` (in units of `π/2`: the code writes only
`±Math.PI/2`), and the named limbs. -/
structure Group where
  posX : ℚ
  rotY2 : Int
  limbs : List Limb
deriving DecidableEq

/-- `group.getObjectByName(n)`: first child with the given name, else
`null`. -/
def Group.getObjectByName (g : Group) (n : String) : Option Limb :=
  g.limbs.find? (fun l => l.name == n)

/-- Assign `rotation.x` of the child named `n` (no-op when absent, matching
the `if (obj) obj.rotation.x = v` guards in the code). -/
def Group.setRotX (g : Group) (n : String) (v : ℚ) : Group :=
  { g with limbs := g.limbs.map (fun l => if l.name == n then { l with rotX := v } else l) }

/-- Assign `rotation.z` (in `π/4` units) of the child named `n`. -/
def Group.setRotZ4 (g : Group) (n : String) (v : Int) : Group :=
  { g with limbs := g.limbs.map (fun l => if l.name == n then { l with rotZ4 := v } else l) }

/-- The `'punch' | 'kick'` union of the `attackType` field. -/
inductive AttackKind where
  | punch
  | kick
deriving DecidableEq

/-- Key bindings of the base fighters demo (`part_001`). -/
structure ControlsB where
  left : String
  right : String
  punch : String
  kick : String
deriving DecidableEq

/-- The `Fighter` record of the base fighters demo (`part_001`). -/
structure FighterB where
  group : Group
  facing : Int
  health : ℚ
  isAttacking : Bool
  attackTimer : ℚ
  attackLimb : Option String
  attackType : Option AttackKind
  controls : ControlsB
deriving DecidableEq

/-- `const speed = 2.5` (movement units per second). -/
def speed : ℚ := 5/2

/-- `const attackDuration = 0.3` (seconds). -/
def attackDuration : ℚ := 3/10

/-- The facing / movement phase at the top of `updateFighter` (`part_001`,
identical in `part_000`): face the opponent, then move left / right while
the corresponding key is held. -/
def movedGroupB (keys : String → Bool) (f opp : FighterB) (dt : ℚ) : Group :=
  let facing : Int := if opp.group.posX > f.group.posX then 1 else -1
  let g0 : Group := { f.group with rotY2 := facing }
  let g1 := if keys f.controls.left then { g0 with posX := g0.posX - speed * dt } else g0
  if keys f.controls.right then { g1 with posX := g1.posX + speed * dt } else g1

/-- The `requestedAttack` computation of the base `updateFighter`: the punch
check runs first and the kick check can overwrite it, so kick wins when both
keys are held. -/
def requestedB (keys : String → Bool) (f : FighterB) : Option AttackKind :=
  if keys f.controls.kick then some .kick
  else if keys f.controls.punch then some .punch
  else none

/-- The attack-start phase of the base `updateFighter`: when not already
attacking and an attack is requested, begin it (timer `attackDuration`, limb
`rightArm` for a punch, `rightLeg` for a kick, looked up by name with `?? null`).
Returns the frame's `(isAttacking, attackTimer, attackType, attackLimb)`
before the timer decrement. -/
def attackStartB (keys : String → Bool) (f opp : FighterB) (dt : ℚ) :
    Bool × ℚ × Option AttackKind × Option String :=
  let requested := requestedB keys f
  let started := !f.isAttacking && requested.isSome
  ( if started then true else f.isAttacking
  , if started then attackDuration else f.attackTimer
  , if started then requested else f.attackType
  , if started then
      let nm := match requested with
        | some .punch => "rightArm"
        | _ => "rightLeg"
      if ((movedGroupB keys f opp dt).getObjectByName nm).isSome then some nm else none
    else f.attackLimb )

/-- The attacker's group as it stands at the collision check of the base
`updateFighter`: after facing / movement and after this frame's limb
animation (swing while attacking with a live attack type, reset to rest when
not attacking).  `Box3.setFromObject(f.group)` is evaluated on exactly this
group. -/
def attackAnimGroupB (keys : String → Bool) (sinQ : ℚ → ℚ) (f opp : FighterB)
    (dt : ℚ) : Group :=
  let g2 := movedGroupB keys f opp dt
  match attackStartB keys f opp dt with
  | (isAtk, aTimer, aType, aLimb) =>
    if isAtk then
      let aTimerDec := aTimer - dt
      let aTypeNew := if aTimerDec ≤ 0 then (none : Option AttackKind) else aType
      match aLimb, aTypeNew with
      | some nm, some _ => g2.setRotX nm (-(sinQ (1 - aTimerDec / attackDuration)))
      | _, _ => g2
    else
      match f.attackLimb with
      | some nm => g2.setRotX nm 0
      | none => g2

/-- Transcription of `updateFighter` from the base fighters demo
(`part_001`), assembled from the phase functions above.  `keys` is the
pressed-key map, `sinQ` the opaque swing-angle function, `boxOf` the opaque
world-AABB computation (see the module comment); the function returns the
updated `(f, opponent)` pair (the code mutates both records in place). -/
def updateFighterB (keys : String → Bool) (sinQ : ℚ → ℚ) (boxOf : Group → Box3)
    (gameOver : Bool) (f opp : FighterB) (dt : ℚ) : FighterB × FighterB :=
  if gameOver ∨ f.health ≤ 0 then (f, opp) else
  let facing : Int := if opp.group.posX > f.group.posX then 1 else -1
  match attackStartB keys f opp dt with
  | (isAtk, aTimer, aType, aLimb) =>
    let g3 := attackAnimGroupB keys sinQ f opp dt
    if isAtk then
      let aTimerDec := aTimer - dt
      let expired := decide (aTimerDec ≤ 0)
      let isAtkNew := if expired then false else isAtk
      let aTypeNew := if expired then (none : Option AttackKind) else aType
      let hit := (boxOf g3).intersectsBox (boxOf opp.group)
      let oppNew := if hit then { opp with health := max 0 (opp.health - 10) } else opp
      let isAtkAfterHit := if hit then false else isAtkNew
      ({ f with
          group := g3
          facing := facing
          isAttacking := isAtkAfterHit
          attackTimer := aTimerDec
          attackType := aTypeNew
          attackLimb := aLimb }, oppNew)
    else
      ({ f with group := g3, facing := facing }, opp)

/-- Key bindings of the blocking / force-field fighters demo (`part_000`). -/
structure ControlsV where
  left : String
  right : String
  punch : String
  kick : String
  block : String
deriving DecidableEq

/-- The `Fighter` record of the blocking / force-field fighters demo
(`part_000`).  The `forceMesh` shield geometry is pure rendering state and
is not mirrored here; the hit logic consults only `forceActiveTimer`. -/
structure FighterV where
  group : Group
  facing : Int
  health : ℚ
  isAttacking : Bool
  attackTimer : ℚ
  attackLimb : Option String
  attackType : Option AttackKind
  isBlocking : Bool
  blockTimer : ℚ
  forceActiveTimer : ℚ
  forceCooldown : ℚ
  controls : ControlsV
deriving DecidableEq

/-- `const BLOCK_GRACE = 0.25` (seconds of extra blocking after key
release). -/
def blockGrace : ℚ := 1/4

/-- The facing / movement phase of the blocking / force-field
`updateFighter` (`part_000`), identical to the base variant. -/
def movedGroupV (keys : String → Bool) (f opp : FighterV) (dt : ℚ) : Group :=
  let facing : Int := if opp.group.posX > f.group.posX then 1 else -1
  let g0 : Group := { f.group with rotY2 := facing }
  let g1 := if keys f.controls.left then { g0 with posX := g0.posX - speed * dt } else g0
  if keys f.controls.right then { g1 with posX := g1.posX + speed * dt } else g1

/-- The block-timer update of the blocking variant: while the block key is
held the timer is reset to the `blockGrace` value; once the key is released
a positive timer is decremented by `dt`. -/
def blockTimerV (keys : String → Bool) (f : FighterV) (dt : ℚ) : ℚ :=
  if keys f.controls.block then blockGrace
  else if f.blockTimer > 0 then f.blockTimer - dt
  else f.blockTimer

/-- The `requestedAttack` computation of the blocking variant: attacking is
disabled while blocking; otherwise the punch check runs first and the kick
check can overwrite it. -/
def requestedV (keys : String → Bool) (f : FighterV) (dt : ℚ) : Option AttackKind :=
  if blockTimerV keys f dt > 0 then none
  else if keys f.controls.kick then some .kick
  else if keys f.controls.punch then some .punch
  else none

/-- The attack-start phase of the blocking variant, mirroring
`attackStartB`. -/
def attackStartV (keys : String → Bool) (f opp : FighterV) (dt : ℚ) :
    Bool × ℚ × Option AttackKind × Option String :=
  let requested := requestedV keys f dt
  let started := !f.isAttacking && requested.isSome
  ( if started then true else f.isAttacking
  , if started then attackDuration else f.attackTimer
  , if started then requested else f.attackType
  , if started then
      let nm := match requested with
        | some .punch => "rightArm"
        | _ => "rightLeg"
      if ((movedGroupV keys f opp dt).getObjectByName nm).isSome then some nm else none
    else f.attackLimb )

/-- The attacker's group as it stands at the collision check of the
blocking variant's `updateFighter` (before the crossed-arms blocking
animation that closes the frame). -/
def attackAnimGroupV (keys : String → Bool) (sinQ : ℚ → ℚ) (f opp : FighterV)
    (dt : ℚ) : Group :=
  let g2 := movedGroupV keys f opp dt
  match attackStartV keys f opp dt with
  | (isAtk, aTimer, aType, aLimb) =>
    if isAtk then
      let aTimerDec := aTimer - dt
      let aTypeNew := if aTimerDec ≤ 0 then (none : Option AttackKind) else aType
      match aLimb, aTypeNew with
      | some nm, some _ => g2.setRotX nm (-(sinQ (1 - aTimerDec / attackDuration)))
      | _, _ => g2
    else
      match f.attackLimb with
      | some nm => g2.setRotX nm 0
      | none => g2

/-- Transcription of `updateFighter` from the blocking / force-field
fighters demo (`part_000`), assembled from the phase functions above.
Differences from the base variant: the block timer is reset to `blockGrace`
while the block key is held and only decremented afterwards, attacks are
suppressed while blocking, a hit additionally requires the opponent to be
neither blocking nor inside an active force field, and a crossed-arms
animation is applied at the end of the frame (the `if (leftArm)` /
`if (rightArm)` guards become the skip-when-absent behaviour of the
rotation setters; neither character actually names its left arm). -/
def updateFighterV (keys : String → Bool) (sinQ : ℚ → ℚ) (boxOf : Group → Box3)
    (gameOver : Bool) (f opp : FighterV) (dt : ℚ) : FighterV × FighterV :=
  if gameOver ∨ f.health ≤ 0 then (f, opp) else
  let facing : Int := if opp.group.posX > f.group.posX then 1 else -1
  let bTimer := blockTimerV keys f dt
  let isBlk := decide (bTimer > 0)
  match attackStartV keys f opp dt with
  | (isAtk, aTimer, aType, aLimb) =>
    let g3 := attackAnimGroupV keys sinQ f opp dt
    let res :=
      if isAtk then
        let aTimerDec := aTimer - dt
        let expired := decide (aTimerDec ≤ 0)
        let isAtkNew := if expired then false else isAtk
        let aTypeNew := if expired then (none : Option AttackKind) else aType
        let hit := (boxOf g3).intersectsBox (boxOf opp.group)
                     && !opp.isBlocking && decide (opp.forceActiveTimer ≤ 0)
        let oppNew := if hit then { opp with health := max 0 (opp.health - 10) } else opp
        let isAtkAfterHit := if hit then false else isAtkNew
        (isAtkAfterHit, aTimerDec, aTypeNew, oppNew)
      else
        (isAtk, aTimer, aType, opp)
    match res with
    | (isAtkOut, aTimerOut, aTypeOut, oppOut) =>
      let g4 :=
        if isBlk then
          (((g3.setRotZ4 "leftArm" 1).setRotX "leftArm" 0).setRotZ4
            "rightArm" (-1)).setRotX "rightArm" 0
        else
          (g3.setRotZ4 "leftArm" 0).setRotZ4 "rightArm" 0
      ({ f with
          group := g4
          facing := facing
          isAttacking := isAtkOut
          attackTimer := aTimerOut
          attackType := aTypeOut
          attackLimb := aLimb
          isBlocking := isBlk
          blockTimer := bTimer }, oppOut)

/-- `MIN_HEALTH` (`security.ts` `SECURITY_CONFIG` and `scene.ts` local
constant). -/
def minHealth : ℚ := 0

/-- `MAX_HEALTH` (`security.ts` `SECURITY_CONFIG` and `scene.ts` local
constant). -/
def maxHealth : ℚ := 100

/-- `validateHealth` from `security.ts` / `scene.ts`:
`Math.max(MIN_HEALTH, Math.min(MAX_HEALTH, health))`. -/
def validateHealth (health : ℚ) : ℚ :=
  max minHealth (min maxHealth health)

/-- Melee hit in `updateFighter` (both demo variants):
`opponent.health = Math.max(0, opponent.health - 10)`. -/
def meleeHitHealth (h : ℚ) : ℚ := max 0 (h - 10)

/-- Fireball projectile hit in `animate`:
`fighter1.health = Math.max(0, fighter1.health - 10)`. -/
def projectileHitHealth (h : ℚ) : ℚ := max 0 (h - 10)

/-- Lightning special in `shootLightning`:
`fighter2.health = Math.max(0, fighter2.health - 10)`. -/
def lightningHitHealth (h : ℚ) : ℚ := max 0 (h - 10)

/-- Special attack in `scene.ts` `performRobloxSpecial`:
`defender.health = Math.max(0, defender.health - 7)`. -/
def robloxSpecialHealth (h : ℚ) : ℚ := max 0 (h - 7)

/-- Special attack in `scene.ts` `performRobotSpecial`:
`defender.health = Math.max(0, defender.health - 2)`. -/
def robotSpecialHealth (h : ℚ) : ℚ := max 0 (h - 2)

/-- Bunny-army hit in `scene.ts` `animate`:
`opponent.health = Math.max(0, opponent.health - 20)`. -/
def bunnyArmyHitHealth (h : ℚ) : ℚ := max 0 (h - 20)

/-- Anti-cheat penalty in `scene.ts` `punishViolation`:
`fighter.health = Math.max(20, fighter.health - 30)`. -/
def punishViolationHealth (h : ℚ) : ℚ := max 20 (h - 30)

/-- State of one special-ability trigger in the `animate` loop: the cooldown
(`lightningCooldown` / `fireballCooldown`) and the previous-frame key state
(`xPressedPrev` / `uPressedPrev`). -/
structure SpecialState where
  cooldown : ℚ
  pressedPrev : Bool
deriving DecidableEq

/-- One frame of the special-ability logic in `animate` (both demo
variants), assuming the game is running and the owner is alive: first
`if (cooldown > 0) cooldown -= dt`, then the special fires when the key is
pressed, was not pressed on the previous frame, and the cooldown is `<= 0`;
firing resets the cooldown to `1` second.  Returns the new state and
whether the special fired this frame. -/
def specialStep (s : SpecialState) (pressed : Bool) (dt : ℚ) : SpecialState × Bool :=
  let cd := if s.cooldown > 0 then s.cooldown - dt else s.cooldown
  if pressed && !s.pressedPrev && decide (cd ≤ 0) then
    ({ cooldown := 1, pressedPrev := pressed }, true)
  else
    ({ cooldown := cd, pressedPrev := pressed }, false)

/-- Run `specialStep` over a list of per-frame `(pressed, dt)` inputs,
returning the per-frame fired flags. -/
def specialFires (s : SpecialState) : List (Bool × ℚ) → List Bool
  | [] => []
  | (p, dt) :: rest =>
    let r := specialStep s p dt
    r.2 :: specialFires r.1 rest

/-- `const bowTime = 0.6` in `bowFighters`. -/
def bowTime : ℚ := 3/5

/-- `const upTime = 0.6` in `bowFighters`. -/
def upTime : ℚ := 3/5

/-- State of the `bowFighters` animation.  The four `Option` fields are the
`rotation.x` values (in units of `π/4`, since the code only ever writes
fractions of `Math.PI / 4`) of the objects looked up by name at the start of
`bowFighters`; `none` means the lookup returned `null`, in which case every
write to that object is skipped.  `callbackRuns` counts invocations of the
completion callback. -/
structure BowState where
  t : ℚ
  torso1 : Option ℚ
  torso2 : Option ℚ
  head1 : Option ℚ
  head2 : Option ℚ
  boyRotY2 : Int
  girlRotY2 : Int
  boyPosX : ℚ
  girlPosX : ℚ
  callbackRuns : Nat
deriving DecidableEq

/-- One `requestAnimationFrame` tick of `bowAnim` inside `bowFighters`
(fixed `dt = 1/60`): bow down for `bowTime` seconds, raise for `upTime`
seconds, then zero the rotations, restore the facing directions and invoke
the callback.  The tick re-schedules itself unconditionally, so ticks keep
arriving (and keep taking the final branch) after completion; `t` is only
advanced by the first two branches.  The function is total: absent objects
are skipped and no branch can fail. -/
def bowStep (s : BowState) : BowState :=
  if s.t < bowTime then
    let angle := s.t / bowTime
    { s with
        torso1 := s.torso1.map (fun _ => angle)
        torso2 := s.torso2.map (fun _ => angle)
        head1 := s.head1.map (fun _ => angle)
        head2 := s.head2.map (fun _ => angle)
        t := s.t + 1/60 }
  else if s.t < bowTime + upTime then
    let progress := (s.t - bowTime) / upTime
    let angle := 1 - progress
    { s with
        torso1 := s.torso1.map (fun _ => angle)
        torso2 := s.torso2.map (fun _ => angle)
        head1 := s.head1.map (fun _ => angle)
        head2 := s.head2.map (fun _ => angle)
        t := s.t + 1/60 }
  else
    { s with
        torso1 := s.torso1.map (fun _ => 0)
        torso2 := s.torso2.map (fun _ => 0)
        head1 := s.head1.map (fun _ => 0)
        head2 := s.head2.map (fun _ => 0)
        boyRotY2 := if s.girlPosX > s.boyPosX then 1 else -1
        girlRotY2 := if s.boyPosX > s.girlPosX then 1 else -1
        callbackRuns := s.callbackRuns + 1 }

/-- Initial `bowFighters` state for a given presence pattern of the four
named-object lookups (`torso` and `head` on each character): `t = 0`, all
present rotations at their rest value `0`, characters at their starting
positions `x = -3` and `x = 3`. -/
def bowInit (pt1 pt2 ph1 ph2 : Bool) : BowState :=
  { t := 0
    torso1 := if pt1 then some 0 else none
    torso2 := if pt2 then some 0 else none
    head1 := if ph1 then some 0 else none
    head2 := if ph2 then some 0 else none
    boyRotY2 := 0
    girlRotY2 := 0
    boyPosX := -3
    girlPosX := 3
    callbackRuns := 0 }

/-- The geometry of a mesh in the cubes demo (`cubeGeometry` or
`sphereGeometry`). -/
inductive GeomKind where
  | cube
  | sphere
deriving DecidableEq

/-- A cloned material in the cubes demo: which base material it was cloned
from, plus the hue offset applied by `color.offsetHSL(i / count, 0, 0)`
(zero when no offset was applied). -/
structure CubeMat where
  kind : GeomKind
  hueOffset : ℚ
deriving DecidableEq

/-- A `THREE.Mesh` tracked by the `cubes` list of the cubes demo, with the
object identity (`id`) that `scene.remove` works on. -/
structure CubeMesh where
  id : Nat
  pos : Vec3
  geom : GeomKind
  mat : CubeMat
  rotX : ℚ
  rotY : ℚ
deriving DecidableEq

/-- The mutable state of the cubes demo that the keydown handler can touch:
`rotationSpeed`, `isSphere`, the tracked `cubes` list, and the ids of the
meshes currently in the scene.  `nextId` is the allocator for fresh mesh
identities. -/
structure CubesState where
  rotationSpeed : ℚ
  isSphere : Bool
  cubes : List CubeMesh
  sceneIds : List Nat
  nextId : Nat
deriving DecidableEq

/-- `const SPEED_THRESHOLD = 1.0`. -/
def speedThreshold : ℚ := 1

/-- `currentGeometry()` in the cubes demo. -/
def currentGeometry (s : CubesState) : GeomKind :=
  if s.isSphere then .sphere else .cube

/-- `Math.ceil(Math.sqrt(n))` for a natural `n` (exact: `Math.sqrt` is
correctly rounded and `n` here is at most 9, far below any double-precision
rounding trouble). -/
def jsGridSize (n : Nat) : Nat :=
  if Nat.sqrt n * Nat.sqrt n = n then Nat.sqrt n else Nat.sqrt n + 1

/-- `const spacing = 1.5` in `createCubes`. -/
def cubeSpacing : ℚ := 3/2

/-- The `i`-th mesh created by `createCubes(count)`: cloned base material
(with hue offset `i / count` for cubes), current geometry, and grid position
`row = floor(i / gridSize)`, `col = i % gridSize`. -/
def mkCube (s : CubesState) (count i : Nat) : CubeMesh :=
  let gridSize := jsGridSize count
  let row := i / gridSize
  let col := i % gridSize
  { id := s.nextId + i
    pos := { x := ((col : ℚ) - ((gridSize : ℚ) - 1) / 2) * cubeSpacing
             y := ((row : ℚ) - ((gridSize : ℚ) - 1) / 2) * cubeSpacing
             z := 0 }
    geom := currentGeometry s
    mat := { kind := currentGeometry s
             hueOffset := if !s.isSphere then (i : ℚ) / (count : ℚ) else 0 }
    rotX := 0
    rotY := 0 }

/-- `createCubes(count)` from the cubes demo: remove every tracked cube
from the scene, then create `count` fresh meshes laid out on the grid and
add them to the scene and the `cubes` list. -/
def createCubes (s : CubesState) (count : Nat) : CubesState :=
  let removed := s.sceneIds.filter (fun i => !(s.cubes.any (fun c => c.id == i)))
  let newCubes := (List.range count).map (mkCube s count)
  { s with
      cubes := newCubes
      sceneIds := removed ++ newCubes.map (fun c => c.id)
      nextId := s.nextId + count }

/-- `const step = 0.1` in the cubes keydown handler. -/
def arrowStep : ℚ := 1/10

/-- Shift every tracked cube's `position.y` by `d`. -/
def moveCubesY (s : CubesState) (d : ℚ) : CubesState :=
  { s with cubes := s.cubes.map (fun c => { c with pos := { c.pos with y := c.pos.y + d } }) }

/-- Shift every tracked cube's `position.x` by `d`. -/
def moveCubesX (s : CubesState) (d : ℚ) : CubesState :=
  { s with cubes := s.cubes.map (fun c => { c with pos := { c.pos with x := c.pos.x + d } }) }

/-- The keydown handler of the cubes demo (`main.ts`), a transcription of
its `switch (event.key)`: arrows translate the cubes, `q`/`Q` and `w`/`W`
adjust `rotationSpeed` and swap geometry across the speed threshold,
digits 1-9 rebuild the cube grid, and every other key falls through to the
missing `default` case and changes nothing. -/
def cubesKeydown (s : CubesState) (key : String) : CubesState :=
  if key == "ArrowUp" then moveCubesY s arrowStep
  else if key == "ArrowDown" then moveCubesY s (-arrowStep)
  else if key == "ArrowLeft" then moveCubesX s (-arrowStep)
  else if key == "ArrowRight" then moveCubesX s arrowStep
  else if key == "q" || key == "Q" then
    let rs := max 0 (s.rotationSpeed - 1/200)
    if rs < speedThreshold ∧ s.isSphere = true then
      { s with
          rotationSpeed := rs
          isSphere := false
          cubes := s.cubes.map (fun c =>
            { c with geom := .cube, mat := { kind := .cube, hueOffset := 0 } }) }
    else { s with rotationSpeed := rs }
  else if key == "w" || key == "W" then
    let rs := s.rotationSpeed + 1/200
    if rs ≥ speedThreshold ∧ s.isSphere = false then
      { s with
          rotationSpeed := rs
          isSphere := true
          cubes := s.cubes.map (fun c =>
            { c with geom := .sphere, mat := { kind := .sphere, hueOffset := 0 } }) }
    else { s with rotationSpeed := rs }
  else if key == "1" then createCubes s 1
  else if key == "2" then createCubes s 2
  else if key == "3" then createCubes s 3
  else if key == "4" then createCubes s 4
  else if key == "5" then createCubes s 5
  else if key == "6" then createCubes s 6
  else if key == "7" then createCubes s 7
  else if key == "8" then createCubes s 8
  else if key == "9" then createCubes s 9
  else s

/-- Build-output resolution of the CI workflow: `<game>/dist` if that
directory exists, else `<game>/build` if that exists, else failure. -/
def resolveOutDir (dirExists : String → Bool) (game : String) : Option String :=
  if dirExists (game ++ "/dist") then some (game ++ "/dist")
  else if dirExists (game ++ "/build") then some (game ++ "/build")
  else none

/-- The per-game loop of the CI build step: for each game in order, resolve
its output directory and record the copy of its contents into
`site/<game>`; a game with no output directory prints an error and exits
with status 1, aborting the pipeline (modelled by `Except.error`). -/
def buildSite (dirExists : String → Bool) : List String → Except String (List (String × String))
  | [] => Except.ok []
  | g :: gs =>
    match resolveOutDir dirExists g with
    | none => Except.error ("Could not find build output directory for " ++ g)
    | some out =>
      match buildSite dirExists gs with
      | Except.error e => Except.error e
      | Except.ok copies => Except.ok ((out, "site/" ++ g) :: copies)

/-- `GAMES=(fighters cubes)` in the CI workflow. -/
def gamesList : List String := ["fighters", "cubes"]

/-- Spec-side hit condition for the base variant, phrased from the claim's
wording: the fighter is in the attacking state during this frame (it
entered the frame attacking, or an attack request started one) and its
axis-aligned bounding box overlaps the opponent's. -/
def hitConditionB (keys : String → Bool) (sinQ : ℚ → ℚ) (boxOf : Group → Box3)
    (f opp : FighterB) (dt : ℚ) : Bool :=
  (f.isAttacking || (requestedB keys f).isSome) &&
    (boxOf (attackAnimGroupB keys sinQ f opp dt)).intersectsBox (boxOf opp.group)

/-- Spec-side hit condition for the blocking / force-field variant: as in
the base variant, and additionally the opponent is not blocking and has no
active force field. -/
def hitConditionV (keys : String → Bool) (sinQ : ℚ → ℚ) (boxOf : Group → Box3)
    (f opp : FighterV) (dt : ℚ) : Bool :=
  ((f.isAttacking || (requestedV keys f dt).isSome) &&
    (boxOf (attackAnimGroupV keys sinQ f opp dt)).intersectsBox (boxOf opp.group)) &&
    !opp.isBlocking && decide (opp.forceActiveTimer ≤ 0)

/-- A pressed-key map with no key held. -/
def noKeys : String → Bool := fun _ => false

/-- A pressed-key map holding exactly the listed key codes. -/
def keysOf (ks : List String) : String → Bool := fun k => ks.contains k

/-- A sample instantiation of the opaque swing-angle function. -/
def sinZero : ℚ → ℚ := fun _ => 0

/-- A sample instantiation of the opaque world-AABB computation: a
2 x 4 x 2 box centred on the group's `x` position. -/
def unitBoxOf : Group → Box3 := fun g =>
  { min := { x := g.posX - 1, y := 0, z := -1 }
    max := { x := g.posX + 1, y := 4, z := 1 } }

/-- The named children shared by both characters (`head`, `torso`,
`rightArm`, `rightLeg`; the left limbs are never given names). -/
def namedLimbs : List Limb :=
  [{ name := "head", rotX := 0, rotZ4 := 0 },
   { name := "torso", rotX := 0, rotZ4 := 0 },
   { name := "rightArm", rotX := 0, rotZ4 := 0 },
   { name := "rightLeg", rotX := 0, rotZ4 := 0 }]

/-- The boy's group at game start (`boy.position.x = -3`). -/
def boyGroup : Group := { posX := -3, rotY2 := 0, limbs := namedLimbs }

/-- The girl's group at game start (`girl.position.x = 3`). -/
def girlGroup : Group := { posX := 3, rotY2 := 0, limbs := namedLimbs }

/-- `fighter1` of the base demo (`part_001`). -/
def fighter1B : FighterB :=
  { group := boyGroup
    facing := 1
    health := 100
    isAttacking := false
    attackTimer := 0
    attackLimb := some "rightArm"
    attackType := none
    controls := { left := "KeyA", right := "KeyD", punch := "KeyF", kick := "KeyG" } }

/-- `fighter2` of the base demo (`part_001`). -/
def fighter2B : FighterB :=
  { group := girlGroup
    facing := -1
    health := 100
    isAttacking := false
    attackTimer := 0
    attackLimb := some "rightLeg"
    attackType := none
    controls := { left := "ArrowLeft", right := "ArrowRight", punch := "Slash", kick := "KeyL" } }

/-- `fighter1` of the blocking / force-field demo (`part_000`). -/
def fighter1V : FighterV :=
  { group := boyGroup
    facing := 1
    health := 100
    isAttacking := false
    attackTimer := 0
    attackLimb := some "rightArm"
    attackType := none
    isBlocking := false
    blockTimer := 0
    forceActiveTimer := 0
    forceCooldown := 0
    controls := { left := "KeyA", right := "KeyD", punch := "KeyF", kick := "KeyH", block := "KeyR" } }

/-- `fighter2` of the blocking / force-field demo (`part_000`). -/
def fighter2V : FighterV :=
  { group := girlGroup
    facing := -1
    health := 100
    isAttacking := false
    attackTimer := 0
    attackLimb := some "rightLeg"
    attackType := none
    isBlocking := false
    blockTimer := 0
    forceActiveTimer := 0
    forceCooldown := 0
    controls := { left := "ArrowLeft", right := "ArrowRight", punch := "Slash", kick := "KeyL", block := "KeyP" } }

lemma attackStartB_isAtk (keys : String → Bool) (f opp : FighterB) (dt : ℚ) :
    (attackStartB keys f opp dt).1 = (f.isAttacking || (requestedB keys f).isSome) := by
  unfold attackStartB
  cases hA : f.isAttacking <;> cases hR : (requestedB keys f).isSome <;> simp [hA, hR]

lemma attackStartV_isAtk (keys : String → Bool) (f opp : FighterV) (dt : ℚ) :
    (attackStartV keys f opp dt).1 = (f.isAttacking || (requestedV keys f dt).isSome) := by
  unfold attackStartV
  cases hA : f.isAttacking <;> cases hR : (requestedV keys f dt).isSome <;> simp [hA, hR]

lemma updateFighterB_hit_char (keys : String → Bool) (sinQ : ℚ → ℚ) (boxOf : Group → Box3)
    (f opp : FighterB) (dt : ℚ) (h : 0 < f.health) :
    (updateFighterB keys sinQ boxOf false f opp dt).2.health =
      (if hitConditionB keys sinQ boxOf f opp dt then max 0 (opp.health - 10)
       else opp.health) ∧
    (hitConditionB keys sinQ boxOf f opp dt = true →
      (updateFighterB keys sinQ boxOf false f opp dt).1.isAttacking = false) := by
  have hIs := attackStartB_isAtk keys f opp dt
  simp only [updateFighterB, hitConditionB]
  rcases hAS : attackStartB keys f opp dt with ⟨isAtk, aTimer, aType, aLimb⟩
  rw [hAS] at hIs
  simp only at hIs
  rw [if_neg (by simp only [Bool.false_eq_true, false_or, not_le]; exact h)]
  dsimp only
  cases isAtk with
  | false =>
    simp only [← hIs]
    simp
  | true =>
    simp only [← hIs]
    cases hHit : (boxOf (attackAnimGroupB keys sinQ f opp dt)).intersectsBox (boxOf opp.group) <;>
      simp [hHit]

lemma updateFighterV_hit_char (keys : String → Bool) (sinQ : ℚ → ℚ) (boxOf : Group → Box3)
    (f opp : FighterV) (dt : ℚ) (h : 0 < f.health) :
    (updateFighterV keys sinQ boxOf false f opp dt).2.health =
      (if hitConditionV keys sinQ boxOf f opp dt then max 0 (opp.health - 10)
       else opp.health) ∧
    (hitConditionV keys sinQ boxOf f opp dt = true →
      (updateFighterV keys sinQ boxOf false f opp dt).1.isAttacking = false) := by
  have hIs := attackStartV_isAtk keys f opp dt
  simp only [updateFighterV, hitConditionV]
  rcases hAS : attackStartV keys f opp dt with ⟨isAtk, aTimer, aType, aLimb⟩
  rw [hAS] at hIs
  simp only at hIs
  rw [if_neg (by simp only [Bool.false_eq_true, false_or, not_le]; exact h)]
  dsimp only
  cases isAtk with
  | false =>
    simp only [← hIs]
    simp
  | true =>
    simp only [← hIs]
    cases hHit : ((boxOf (attackAnimGroupV keys sinQ f opp dt)).intersectsBox (boxOf opp.group)
        && !opp.isBlocking && decide (opp.forceActiveTimer ≤ 0)) <;>
      simp [hHit]

/-- C1: in `updateFighter`, a hit is registered exactly when the attacker's
axis-aligned bounding box overlaps the opponent's while the fighter is in
the attacking state (and, in the blocking / force-field variant, the
opponent is neither blocking nor protected by an active force field);
registering a hit sets the opponent's health to `max(0, health - 10)` and
ends the attacker's attacking state.  Stated for both demo variants via the
spec-side conditions `hitConditionB` / `hitConditionV`. -/
theorem c1_hit_registration (keysB : String → Bool) (sinQB : ℚ → ℚ) (boxOfB : Group → Box3)
    (fB oppB : FighterB) (dtB : ℚ) (keysV : String → Bool) (sinQV : ℚ → ℚ)
    (boxOfV : Group → Box3) (fV oppV : FighterV) (dtV : ℚ)
    (hB : 0 < fB.health) (hV : 0 < fV.health) :
    ((updateFighterB keysB sinQB boxOfB false fB oppB dtB).2.health =
        (if hitConditionB keysB sinQB boxOfB fB oppB dtB then max 0 (oppB.health - 10)
         else oppB.health) ∧
      (hitConditionB keysB sinQB boxOfB fB oppB dtB = true →
        (updateFighterB keysB sinQB boxOfB false fB oppB dtB).1.isAttacking = false)) ∧
    ((updateFighterV keysV sinQV boxOfV false fV oppV dtV).2.health =
        (if hitConditionV keysV sinQV boxOfV fV oppV dtV then max 0 (oppV.health - 10)
         else oppV.health) ∧
      (hitConditionV keysV sinQV boxOfV fV oppV dtV = true →
        (updateFighterV keysV sinQV boxOfV false fV oppV dtV).1.isAttacking = false)) :=
  ⟨updateFighterB_hit_char keysB sinQB boxOfB fB oppB dtB hB,
   updateFighterV_hit_char keysV sinQV boxOfV fV oppV dtV hV⟩

/-- Closed instance of `c1_hit_registration` at the demo's starting
fighters, the empty key map, and `dt = 1/60`. -/
theorem c1_hit_registration_witness :
    0 < fighter1B.health ∧ 0 < fighter1V.health ∧
    (((updateFighterB noKeys sinZero unitBoxOf false fighter1B fighter2B (1/60)).2.health =
        (if hitConditionB noKeys sinZero unitBoxOf fighter1B fighter2B (1/60) then
          max 0 (fighter2B.health - 10) else fighter2B.health)) ∧
      (hitConditionB noKeys sinZero unitBoxOf fighter1B fighter2B (1/60) = true →
        (updateFighterB noKeys sinZero unitBoxOf false fighter1B fighter2B
          (1/60)).1.isAttacking = false)) ∧
    (((updateFighterV noKeys sinZero unitBoxOf false fighter1V fighter2V (1/60)).2.health =
        (if hitConditionV noKeys sinZero unitBoxOf fighter1V fighter2V (1/60) then
          max 0 (fighter2V.health - 10) else fighter2V.health)) ∧
      (hitConditionV noKeys sinZero unitBoxOf fighter1V fighter2V (1/60) = true →
        (updateFighterV noKeys sinZero unitBoxOf false fighter1V fighter2V
          (1/60)).1.isAttacking = false)) := by
  have h := c1_hit_registration noKeys sinZero unitBoxOf fighter1B fighter2B (1/60)
    noKeys sinZero unitBoxOf fighter1V fighter2V (1/60) (by decide) (by decide)
  exact ⟨by decide, by decide, h.1, h.2⟩

lemma updateFighterB_snd_health_cases (keys : String → Bool) (sinQ : ℚ → ℚ)
    (boxOf : Group → Box3) (go : Bool) (f opp : FighterB) (dt : ℚ) :
    (updateFighterB keys sinQ boxOf go f opp dt).2.health = opp.health ∨
    (updateFighterB keys sinQ boxOf go f opp dt).2.health = max 0 (opp.health - 10) := by
  simp only [updateFighterB]
  rcases hAS : attackStartB keys f opp dt with ⟨isAtk, aTimer, aType, aLimb⟩
  dsimp only
  split_ifs <;> simp

lemma updateFighterV_snd_health_cases (keys : String → Bool) (sinQ : ℚ → ℚ)
    (boxOf : Group → Box3) (go : Bool) (f opp : FighterV) (dt : ℚ) :
    (updateFighterV keys sinQ boxOf go f opp dt).2.health = opp.health ∨
    (updateFighterV keys sinQ boxOf go f opp dt).2.health = max 0 (opp.health - 10) := by
  simp only [updateFighterV]
  rcases hAS : attackStartV keys f opp dt with ⟨isAtk, aTimer, aType, aLimb⟩
  dsimp only
  split_ifs <;> simp

/-- C3: `validateHealth` always lands in `[MIN_HEALTH, MAX_HEALTH] = [0, 100]`,
and every health-changing operation (melee hit, projectile hit, lightning,
the `scene.ts` specials, the bunny-army hit, the anti-cheat penalty) keeps a
health value that was in `[0, 100]` inside `[0, 100]`; likewise the full
per-frame `updateFighter` of either variant keeps the opponent's health in
range. -/
theorem c3_health_clamped :
    (∀ h : ℚ, minHealth ≤ validateHealth h ∧ validateHealth h ≤ maxHealth) ∧
    (∀ h : ℚ, 0 ≤ h → h ≤ 100 →
      (0 ≤ meleeHitHealth h ∧ meleeHitHealth h ≤ 100) ∧
      (0 ≤ projectileHitHealth h ∧ projectileHitHealth h ≤ 100) ∧
      (0 ≤ lightningHitHealth h ∧ lightningHitHealth h ≤ 100) ∧
      (0 ≤ robloxSpecialHealth h ∧ robloxSpecialHealth h ≤ 100) ∧
      (0 ≤ robotSpecialHealth h ∧ robotSpecialHealth h ≤ 100) ∧
      (0 ≤ bunnyArmyHitHealth h ∧ bunnyArmyHitHealth h ≤ 100) ∧
      (0 ≤ punishViolationHealth h ∧ punishViolationHealth h ≤ 100)) ∧
    (∀ (keys : String → Bool) (sinQ : ℚ → ℚ) (boxOf : Group → Box3) (go : Bool)
        (f opp : FighterB) (dt : ℚ), 0 ≤ opp.health → opp.health ≤ 100 →
      0 ≤ (updateFighterB keys sinQ boxOf go f opp dt).2.health ∧
      (updateFighterB keys sinQ boxOf go f opp dt).2.health ≤ 100) ∧
    (∀ (keys : String → Bool) (sinQ : ℚ → ℚ) (boxOf : Group → Box3) (go : Bool)
        (f opp : FighterV) (dt : ℚ), 0 ≤ opp.health → opp.health ≤ 100 →
      0 ≤ (updateFighterV keys sinQ boxOf go f opp dt).2.health ∧
      (updateFighterV keys sinQ boxOf go f opp dt).2.health ≤ 100) := by
  refine ⟨?_, ?_, ?_, ?_⟩
  · intro h
    unfold validateHealth minHealth maxHealth
    exact ⟨le_max_left _ _, max_le (by norm_num) (min_le_left _ _)⟩
  · intro h h0 h100
    unfold meleeHitHealth projectileHitHealth lightningHitHealth robloxSpecialHealth
      robotSpecialHealth bunnyArmyHitHealth punishViolationHealth
    refine ⟨⟨le_max_left _ _, max_le (by norm_num) (by linarith)⟩,
      ⟨le_max_left _ _, max_le (by norm_num) (by linarith)⟩,
      ⟨le_max_left _ _, max_le (by norm_num) (by linarith)⟩,
      ⟨le_max_left _ _, max_le (by norm_num) (by linarith)⟩,
      ⟨le_max_left _ _, max_le (by norm_num) (by linarith)⟩,
      ⟨le_max_left _ _, max_le (by norm_num) (by linarith)⟩,
      ⟨le_trans (by norm_num) (le_max_left _ _), max_le (by norm_num) (by linarith)⟩⟩
  · intro keys sinQ boxOf go f opp dt h0 h100
    rcases updateFighterB_snd_health_cases keys sinQ boxOf go f opp dt with hc | hc <;>
      rw [hc]
    · exact ⟨h0, h100⟩
    · exact ⟨le_max_left _ _, max_le (by norm_num) (by linarith)⟩
  · intro keys sinQ boxOf go f opp dt h0 h100
    rcases updateFighterV_snd_health_cases keys sinQ boxOf go f opp dt with hc | hc <;>
      rw [hc]
    · exact ⟨h0, h100⟩
    · exact ⟨le_max_left _ _, max_le (by norm_num) (by linarith)⟩

/-- Closed instance of `c3_health_clamped`: clamping an overshoot value and
updating the starting fighters. -/
theorem c3_health_clamped_witness :
    (minHealth ≤ validateHealth 150 ∧ validateHealth 150 ≤ maxHealth) ∧
    ((0:ℚ) ≤ 55 ∧ (55:ℚ) ≤ 100) ∧
    (0 ≤ punishViolationHealth 55 ∧ punishViolationHealth 55 ≤ 100) ∧
    (0 ≤ (updateFighterB noKeys sinZero unitBoxOf false fighter1B fighter2B (1/60)).2.health ∧
      (updateFighterB noKeys sinZero unitBoxOf false fighter1B fighter2B (1/60)).2.health ≤ 100) ∧
    (0 ≤ (updateFighterV noKeys sinZero unitBoxOf false fighter1V fighter2V (1/60)).2.health ∧
      (updateFighterV noKeys sinZero unitBoxOf false fighter1V fighter2V (1/60)).2.health ≤ 100) := by
  have h := c3_health_clamped
  exact ⟨h.1 150, ⟨by norm_num, by norm_num⟩,
    (h.2.1 55 (by norm_num) (by norm_num)).2.2.2.2.2.2,
    h.2.2.1 noKeys sinZero unitBoxOf false fighter1B fighter2B (1/60) (by decide) (by decide),
    h.2.2.2 noKeys sinZero unitBoxOf false fighter1V fighter2V (1/60) (by decide) (by decide)⟩

/-- C8: the per-frame fighter update is deterministic — from equal pressed-key
maps, equal opaque scene-graph functions, equal fighter and opponent states
and an equal `dt`, `updateFighter` produces equal results.  The embedding of
the base variant is a pure function of exactly these inputs (it consults no
clock and no randomness), so two runs agree. -/
theorem c8_update_deterministic (keys1 keys2 : String → Bool) (sinQ1 sinQ2 : ℚ → ℚ)
    (boxOf1 boxOf2 : Group → Box3) (go1 go2 : Bool) (f1 f2 o1 o2 : FighterB) (dt1 dt2 : ℚ)
    (hk : keys1 = keys2) (hs : sinQ1 = sinQ2) (hb : boxOf1 = boxOf2) (hg : go1 = go2)
    (hf : f1 = f2) (ho : o1 = o2) (hd : dt1 = dt2) :
    updateFighterB keys1 sinQ1 boxOf1 go1 f1 o1 dt1 =
      updateFighterB keys2 sinQ2 boxOf2 go2 f2 o2 dt2 := by
  subst hk
  subst hs
  subst hb
  subst hg
  subst hf
  subst ho
  subst hd
  rfl

/-- Closed instance of `c8_update_deterministic` at the demo's starting
state. -/
theorem c8_update_deterministic_witness :
    updateFighterB noKeys sinZero unitBoxOf false fighter1B fighter2B (1/60) =
      updateFighterB noKeys sinZero unitBoxOf false fighter1B fighter2B (1/60) :=
  c8_update_deterministic noKeys noKeys sinZero sinZero unitBoxOf unitBoxOf false false
    fighter1B fighter1B fighter2B fighter2B (1/60) (1/60) rfl rfl rfl rfl rfl rfl rfl

lemma movedGroupB_limbs (keys : String → Bool) (f opp : FighterB) (dt : ℚ) :
    (movedGroupB keys f opp dt).limbs = f.group.limbs := by
  simp only [movedGroupB]
  split_ifs <;> rfl

lemma movedGroupB_getObjectByName (keys : String → Bool) (f opp : FighterB) (dt : ℚ)
    (nm : String) :
    (movedGroupB keys f opp dt).getObjectByName nm = f.group.getObjectByName nm := by
  unfold Group.getObjectByName
  rw [movedGroupB_limbs]

/-- C10: in the base variant's `updateFighter`, when punch and kick keys are
both held in the same frame and the fighter is not already attacking, the
attack that starts is a kick (the kick check overwrites the punch request),
the chosen limb is the object named `rightLeg`, and the freshly started
attack timer is `attackDuration - dt`. -/
theorem c10_kick_overrides_punch (keys : String → Bool) (sinQ : ℚ → ℚ)
    (boxOf : Group → Box3) (f opp : FighterB) (dt : ℚ) (hh : 0 < f.health)
    (hatk : f.isAttacking = false) (hp : keys f.controls.punch = true)
    (hk : keys f.controls.kick = true) (hdt : dt < attackDuration) :
    (updateFighterB keys sinQ boxOf false f opp dt).1.attackType = some AttackKind.kick ∧
    ((f.group.getObjectByName "rightLeg").isSome = true →
      (updateFighterB keys sinQ boxOf false f opp dt).1.attackLimb = some "rightLeg") ∧
    (updateFighterB keys sinQ boxOf false f opp dt).1.attackTimer = attackDuration - dt := by
  have hreq : requestedB keys f = some AttackKind.kick := by
    simp [requestedB, hk]
  have hAS : attackStartB keys f opp dt =
      (true, attackDuration, some AttackKind.kick,
        if ((movedGroupB keys f opp dt).getObjectByName "rightLeg").isSome then
          some "rightLeg" else none) := by
    simp [attackStartB, hreq, hatk]
  have hexp : decide (attackDuration - dt ≤ 0) = false := by
    simp only [decide_eq_false_iff_not, not_le]
    linarith
  simp only [updateFighterB, hAS]
  rw [if_neg (by simp only [Bool.false_eq_true, false_or, not_le]; exact hh)]
  rw [movedGroupB_getObjectByName]
  simp only [if_true, hexp]
  refine ⟨by simp, ?_, by simp⟩
  intro hleg
  simp [hleg]

/-- Closed instance of `c10_kick_overrides_punch`: boy holds punch (`KeyF`)
and kick (`KeyG`) together at game start. -/
theorem c10_kick_overrides_punch_witness :
    0 < fighter1B.health ∧ fighter1B.isAttacking = false ∧
    keysOf ["KeyF", "KeyG"] fighter1B.controls.punch = true ∧
    keysOf ["KeyF", "KeyG"] fighter1B.controls.kick = true ∧
    (1/60 : ℚ) < attackDuration ∧
    (updateFighterB (keysOf ["KeyF", "KeyG"]) sinZero unitBoxOf false fighter1B fighter2B
        (1/60)).1.attackType = some AttackKind.kick ∧
    (updateFighterB (keysOf ["KeyF", "KeyG"]) sinZero unitBoxOf false fighter1B fighter2B
        (1/60)).1.attackLimb = some "rightLeg" := by
  have h := c10_kick_overrides_punch (keysOf ["KeyF", "KeyG"]) sinZero unitBoxOf fighter1B
    fighter2B (1/60) (by decide) (by decide) (by decide) (by decide)
    (by norm_num [attackDuration])
  exact ⟨by decide, by decide, by decide, by decide, by norm_num [attackDuration], h.1,
    h.2.1 (by decide)⟩

lemma updateFighterV_fst_blockTimer (keys : String → Bool) (sinQ : ℚ → ℚ)
    (boxOf : Group → Box3) (f opp : FighterV) (dt : ℚ) (h : 0 < f.health) :
    (updateFighterV keys sinQ boxOf false f opp dt).1.blockTimer = blockTimerV keys f dt := by
  simp only [updateFighterV]
  rcases hAS : attackStartV keys f opp dt with ⟨isAtk, aTimer, aType, aLimb⟩
  rw [if_neg (by simp only [Bool.false_eq_true, false_or, not_le]; exact h)]

lemma updateFighterV_timer_char (keys : String → Bool) (sinQ : ℚ → ℚ)
    (boxOf : Group → Box3) (f opp : FighterV) (dt : ℚ) (h : 0 < f.health)
    (hatk : (f.isAttacking || (requestedV keys f dt).isSome) = true) :
    (updateFighterV keys sinQ boxOf false f opp dt).1.attackTimer =
      (if f.isAttacking = true then f.attackTimer else attackDuration) - dt ∧
    ((updateFighterV keys sinQ boxOf false f opp dt).1.attackTimer ≤ 0 →
      (updateFighterV keys sinQ boxOf false f opp dt).1.isAttacking = false ∧
      (updateFighterV keys sinQ boxOf false f opp dt).1.attackType = none) := by
  have hIs := attackStartV_isAtk keys f opp dt
  have hTimer : (attackStartV keys f opp dt).2.1 =
      (if f.isAttacking = true then f.attackTimer else attackDuration) := by
    unfold attackStartV
    cases hA : f.isAttacking <;> cases hR : (requestedV keys f dt).isSome
    · rw [hA, hR] at hatk
      simp at hatk
    · simp [hA, hR]
    · simp [hA, hR]
    · simp [hA, hR]
  simp only [updateFighterV]
  rcases hAS : attackStartV keys f opp dt with ⟨isAtk, aTimer, aType, aLimb⟩
  rw [hAS] at hIs hTimer
  simp only at hIs hTimer
  have hIsT : isAtk = true := by rw [hIs, hatk]
  subst hIsT
  subst hTimer
  rw [if_neg (by simp only [Bool.false_eq_true, false_or, not_le]; exact h)]
  dsimp only
  constructor
  · rfl
  · intro hle
    have hexp : decide ((if f.isAttacking = true then f.attackTimer else attackDuration)
        - dt ≤ 0) = true := decide_eq_true hle
    simp only [hexp]
    constructor <;> simp [hexp]

lemma specialStep_noFire_cooldown (s : SpecialState) (p : Bool) (dt : ℚ)
    (h : 0 < s.cooldown) (hnf : (specialStep s p dt).2 = false) :
    (specialStep s p dt).1.cooldown = s.cooldown - dt := by
  revert hnf
  simp only [specialStep]
  rw [if_pos h]
  by_cases hc : (p && !s.pressedPrev && decide (s.cooldown - dt ≤ 0)) = true
  · rw [if_pos hc]
    intro hnf
    simp at hnf
  · rw [if_neg hc]
    intro _
    rfl

/-- C2 (amended): each frame the blocking-variant update decrements the
running attack timer by `dt` while the fighter is attacking (the timer of an
attack freshly started this frame begins at `attackDuration`), and ends the
attacking state (`isAttacking := false`, `attackType := null`) once the
decremented timer is `≤ 0`; a positive block timer is decremented by `dt`
only when the block key is not held — while the key is held it is instead
reset to the 0.25 s grace value; a positive special-ability cooldown is
decremented by `dt` on every frame on which the special does not fire. -/
theorem c2_timers (keys : String → Bool) (sinQ : ℚ → ℚ) (boxOf : Group → Box3)
    (f opp : FighterV) (dt : ℚ) (s : SpecialState) (p : Bool) (sdt : ℚ)
    (h : 0 < f.health) :
    (keys f.controls.block = true →
      (updateFighterV keys sinQ boxOf false f opp dt).1.blockTimer = blockGrace) ∧
    (keys f.controls.block = false → 0 < f.blockTimer →
      (updateFighterV keys sinQ boxOf false f opp dt).1.blockTimer = f.blockTimer - dt) ∧
    ((f.isAttacking || (requestedV keys f dt).isSome) = true →
      (updateFighterV keys sinQ boxOf false f opp dt).1.attackTimer =
        (if f.isAttacking = true then f.attackTimer else attackDuration) - dt ∧
      ((updateFighterV keys sinQ boxOf false f opp dt).1.attackTimer ≤ 0 →
        (updateFighterV keys sinQ boxOf false f opp dt).1.isAttacking = false ∧
        (updateFighterV keys sinQ boxOf false f opp dt).1.attackType = none)) ∧
    (0 < s.cooldown → (specialStep s p sdt).2 = false →
      (specialStep s p sdt).1.cooldown = s.cooldown - sdt) := by
  refine ⟨?_, ?_, fun hatk => updateFighterV_timer_char keys sinQ boxOf f opp dt h hatk,
    fun hc hnf => specialStep_noFire_cooldown s p sdt hc hnf⟩
  · intro hb
    rw [updateFighterV_fst_blockTimer keys sinQ boxOf f opp dt h]
    simp [blockTimerV, hb]
  · intro hb hpos
    rw [updateFighterV_fst_blockTimer keys sinQ boxOf f opp dt h]
    simp [blockTimerV, hb, hpos]

/-- C2 counterexample to the claim as stated: with the block key held and
the block timer active at its grace value, the update does not decrement
the block timer by `dt` (it resets it to the grace value instead). -/
theorem c2_timers_counterexample :
    0 < ({ fighter1V with blockTimer := 1/4 } : FighterV).blockTimer ∧
    ¬((updateFighterV (keysOf ["KeyR"]) sinZero unitBoxOf false
        { fighter1V with blockTimer := 1/4 } fighter2V (1/60)).1.blockTimer =
      ({ fighter1V with blockTimer := 1/4 } : FighterV).blockTimer - 1/60) := by
  constructor
  · norm_num
  · rw [updateFighterV_fst_blockTimer _ _ _ _ _ _ (by norm_num [fighter1V])]
    simp only [blockTimerV]
    rw [if_pos (by decide)]
    norm_num [blockGrace]

/-- Closed instance of `c2_timers`: the boy holds the block key at game
start, and a quarter-second frame is applied to a freshly fired special. -/
theorem c2_timers_witness :
    0 < fighter1V.health ∧
    (updateFighterV (keysOf ["KeyR"]) sinZero unitBoxOf false fighter1V fighter2V
        (1/60)).1.blockTimer = blockGrace ∧
    (specialStep { cooldown := 1, pressedPrev := false } false (1/4)).1.cooldown = 1 - 1/4 := by
  have h := c2_timers (keysOf ["KeyR"]) sinZero unitBoxOf fighter1V fighter2V (1/60)
    { cooldown := 1, pressedPrev := false } false (1/4) (by norm_num [fighter1V])
  refine ⟨by norm_num [fighter1V], h.1 (by decide), h.2.2.2 (by norm_num) ?_⟩
  norm_num [specialStep]

lemma buildSite_error_of_missing (dirExists : String → Bool) :
    ∀ (gs : List String) (g : String), g ∈ gs → resolveOutDir dirExists g = none →
      ∃ msg, buildSite dirExists gs = Except.error msg := by
  intro gs
  induction gs with
  | nil =>
    intro g hg
    simp at hg
  | cons a rest ih =>
    intro g hg hnone
    rcases List.mem_cons.mp hg with rfl | hmem
    · exact ⟨"Could not find build output directory for " ++ g, by simp [buildSite, hnone]⟩
    · cases hres : resolveOutDir dirExists a with
      | none =>
        exact ⟨"Could not find build output directory for " ++ a, by simp [buildSite, hres]⟩
      | some out =>
        rcases ih g hmem hnone with ⟨msg, hmsg⟩
        exact ⟨msg, by simp [buildSite, hres, hmsg]⟩

lemma buildSite_ok_of_all (dirExists : String → Bool) :
    ∀ gs : List String, (∀ g ∈ gs, (resolveOutDir dirExists g).isSome = true) →
      buildSite dirExists gs =
        Except.ok (gs.map (fun g => ((resolveOutDir dirExists g).getD "", "site/" ++ g))) := by
  intro gs
  induction gs with
  | nil => intro _; rfl
  | cons a rest ih =>
    intro hall
    have ha := hall a (by simp)
    cases hres : resolveOutDir dirExists a with
    | none =>
      rw [hres] at ha
      simp at ha
    | some out =>
      have hrest := ih (fun g hg => hall g (by simp [hg]))
      simp [buildSite, hres, hrest]

/-- C4: the CI build step resolves each game's output directory as
`<game>/dist` if it exists, else `<game>/build` if it exists; when neither
exists it fails (error and `exit 1`), aborting the pipeline, and when every
game resolves, the step performs exactly the copies of each output
directory's contents into `site/<game>`. -/
theorem c4_build_output_resolution :
    (∀ (dirExists : String → Bool) (g : String),
      (dirExists (g ++ "/dist") = true → resolveOutDir dirExists g = some (g ++ "/dist")) ∧
      (dirExists (g ++ "/dist") = false → dirExists (g ++ "/build") = true →
        resolveOutDir dirExists g = some (g ++ "/build")) ∧
      (dirExists (g ++ "/dist") = false → dirExists (g ++ "/build") = false →
        resolveOutDir dirExists g = none)) ∧
    (∀ (dirExists : String → Bool) (gs : List String) (g : String), g ∈ gs →
      resolveOutDir dirExists g = none → ∃ msg, buildSite dirExists gs = Except.error msg) ∧
    (∀ (dirExists : String → Bool) (gs : List String),
      (∀ g ∈ gs, (resolveOutDir dirExists g).isSome = true) →
      buildSite dirExists gs =
        Except.ok (gs.map (fun g => ((resolveOutDir dirExists g).getD "", "site/" ++ g)))) := by
  refine ⟨?_, buildSite_error_of_missing, buildSite_ok_of_all⟩
  intro dirExists g
  refine ⟨fun h1 => by simp [resolveOutDir, h1], fun h1 h2 => by simp [resolveOutDir, h1, h2],
    fun h1 h2 => by simp [resolveOutDir, h1, h2]⟩

/-- A sample directory layout for the CI model: `fighters` has a `dist`
output and `cubes` has a `build` output. -/
def ciDirExists : String → Bool := fun p => p == "fighters/dist" || p == "cubes/build"

/-- A sample directory layout with no build outputs at all. -/
def noDirExists : String → Bool := fun _ => false

/-- Closed instance of `c4_build_output_resolution` on the workflow's
`GAMES` list for both a complete layout and an empty one. -/
theorem c4_build_output_resolution_witness :
    ciDirExists ("fighters" ++ "/dist") = true ∧
    resolveOutDir ciDirExists "fighters" = some ("fighters" ++ "/dist") ∧
    (∀ g ∈ gamesList, (resolveOutDir ciDirExists g).isSome = true) ∧
    buildSite ciDirExists gamesList =
      Except.ok (gamesList.map
        (fun g => ((resolveOutDir ciDirExists g).getD "", "site/" ++ g))) ∧
    ("fighters" : String) ∈ gamesList ∧
    resolveOutDir noDirExists "fighters" = none ∧
    (∃ msg, buildSite noDirExists gamesList = Except.error msg) := by
  have h := c4_build_output_resolution
  refine ⟨by decide, (h.1 ciDirExists "fighters").1 (by decide), by decide,
    h.2.2 ciDirExists gamesList (by decide), by decide,
    (h.1 noDirExists "fighters").2.2 (by decide) (by decide),
    h.2.1 noDirExists gamesList "fighters" (by decide)
      ((h.1 noDirExists "fighters").2.2 (by decide) (by decide))⟩

/-- The keys the cubes demo's `switch (event.key)` handles; everything else
falls through with no state change. -/
def cubesHandledKeys : List String :=
  ["ArrowUp", "ArrowDown", "ArrowLeft", "ArrowRight", "q", "Q", "w", "W",
   "1", "2", "3", "4", "5", "6", "7", "8", "9"]

/-- C6: any keydown whose key is not one of the handled keys leaves the
whole cubes-demo state unchanged — `rotationSpeed`, `isSphere`, the tracked
cubes list (hence every cube's position, geometry and material) and the
scene contents are all identical. -/
theorem c6_unhandled_key_noop (s : CubesState) (key : String)
    (h : key ∉ cubesHandledKeys) : cubesKeydown s key = s := by
  simp only [cubesHandledKeys, List.mem_cons, List.not_mem_nil, or_false, not_or] at h
  obtain ⟨h1, h2, h3, h4, h5, h6, h7, h8, h9, h10, h11, h12, h13, h14, h15, h16, h17⟩ := h
  simp [cubesKeydown, h1, h2, h3, h4, h5, h6, h7, h8, h9, h10, h11, h12, h13, h14, h15,
    h16, h17]

/-- The cubes demo's module-level initial state, before `createCubes(1)`
runs in `init` (`rotationSpeed = 0.01`, cube mode, nothing tracked). -/
def cubesInit : CubesState :=
  { rotationSpeed := 1/100, isSphere := false, cubes := [], sceneIds := [], nextId := 0 }

/-- The cubes demo's state right after `init` calls `createCubes(1)`. -/
def sampleCubes : CubesState := createCubes cubesInit 1

/-- Closed instance of `c6_unhandled_key_noop`: the unhandled key `x` on the
demo's initial state. -/
theorem c6_unhandled_key_noop_witness :
    ("x" ∉ cubesHandledKeys) ∧ cubesKeydown sampleCubes "x" = sampleCubes :=
  ⟨by decide, c6_unhandled_key_noop sampleCubes "x" (by decide)⟩

lemma createCubes_cubes_length (s : CubesState) (n : Nat) :
    (createCubes s n).cubes.length = n := by
  simp [createCubes]

lemma createCubes_cubes_get (s : CubesState) (n i : Nat)
    (hi : i < (createCubes s n).cubes.length) :
    (createCubes s n).cubes.get ⟨i, hi⟩ = mkCube s n i := by
  have hi2 : i < n := by
    rw [createCubes_cubes_length] at hi
    exact hi
  simp only [createCubes]
  rw [List.get_eq_getElem]
  simp only [List.getElem_map, List.getElem_range]

lemma createCubes_removes_old (s : CubesState) (n : Nat)
    (hid : ∀ c ∈ s.cubes, c.id < s.nextId) :
    ∀ c ∈ s.cubes, c.id ∉ (createCubes s n).sceneIds := by
  intro c hc hmem
  simp only [createCubes] at hmem
  rcases List.mem_append.mp hmem with hfil | hnew
  · have hkeep := (List.mem_filter.mp hfil).2
    have hany : s.cubes.any (fun c2 => c2.id == c.id) = true :=
      List.any_eq_true.mpr ⟨c, hc, by simp⟩
    rw [hany] at hkeep
    simp at hkeep
  · rcases List.mem_map.mp hnew with ⟨cm, hcm, hcmid⟩
    rcases List.mem_map.mp hcm with ⟨j, hj, rfl⟩
    have hlt := hid c hc
    have hmk : (mkCube s n j).id = s.nextId + j := rfl
    rw [hmk] at hcmid
    omega

lemma createCubes_fresh (s : CubesState) (n : Nat) :
    ∀ c ∈ (createCubes s n).cubes, s.nextId ≤ c.id := by
  intro c hc
  simp only [createCubes] at hc
  rcases List.mem_map.mp hc with ⟨j, hj, rfl⟩
  have hmk : (mkCube s n j).id = s.nextId + j := rfl
  rw [hmk]
  exact Nat.le_add_right _ _

lemma jsGridSize_spec (n : Nat) (h : 1 ≤ n) :
    n ≤ jsGridSize n * jsGridSize n ∧ (jsGridSize n - 1) * (jsGridSize n - 1) < n := by
  unfold jsGridSize
  by_cases hsq : Nat.sqrt n * Nat.sqrt n = n
  · rw [if_pos hsq]
    have h1 : 1 ≤ Nat.sqrt n := Nat.sqrt_pos.mpr (by omega)
    obtain ⟨b, hb⟩ : ∃ b, Nat.sqrt n = b + 1 := ⟨Nat.sqrt n - 1, by omega⟩
    rw [hb] at hsq ⊢
    have hexpand : (b + 1) * (b + 1) = b * b + 2 * b + 1 := by ring
    constructor
    · omega
    · simp only [Nat.add_sub_cancel]
      omega
  · rw [if_neg hsq]
    have hle := Nat.sqrt_le n
    have hlt := Nat.lt_succ_sqrt n
    have hsucc : Nat.succ (Nat.sqrt n) = Nat.sqrt n + 1 := rfl
    rw [hsucc] at hlt
    constructor
    · exact Nat.le_of_lt hlt
    · simp only [Nat.add_sub_cancel]
      exact lt_of_le_of_ne hle hsq

lemma cubesKeydown_digit (s : CubesState) (n : Nat) (h1 : 1 ≤ n) (h9 : n ≤ 9) :
    cubesKeydown s (Nat.repr n) = createCubes s n := by
  interval_cases n <;> rfl

/-- C9: pressing digit key `n` (1-9) in the cubes demo runs
`createCubes(n)`: every previously tracked cube disappears from the scene,
the tracked list holds exactly `n` freshly created meshes, and cube `i`
sits on a grid of width `ceil(sqrt(n))` with spacing 1.5 at row
`floor(i / gridSize)` and column `i % gridSize` (the two `jsGridSize`
bounds state that it is the least width whose square covers `n`). -/
theorem c9_create_cubes_grid (s : CubesState) (n : Nat) (h1 : 1 ≤ n) (h9 : n ≤ 9)
    (hid : ∀ c ∈ s.cubes, c.id < s.nextId) :
    cubesKeydown s (Nat.repr n) = createCubes s n ∧
    (createCubes s n).cubes.length = n ∧
    (∀ c ∈ s.cubes, c.id ∉ (createCubes s n).sceneIds) ∧
    (∀ c ∈ (createCubes s n).cubes, s.nextId ≤ c.id) ∧
    n ≤ jsGridSize n * jsGridSize n ∧
    (jsGridSize n - 1) * (jsGridSize n - 1) < n ∧
    (∀ i, (hi : i < (createCubes s n).cubes.length) →
      (createCubes s n).cubes.get ⟨i, hi⟩ = mkCube s n i ∧
      ((createCubes s n).cubes.get ⟨i, hi⟩).pos =
        { x := ((i % jsGridSize n : ℕ) - ((jsGridSize n : ℚ) - 1) / 2) * cubeSpacing
          y := ((i / jsGridSize n : ℕ) - ((jsGridSize n : ℚ) - 1) / 2) * cubeSpacing
          z := 0 } ∧
      ((createCubes s n).cubes.get ⟨i, hi⟩).geom = currentGeometry s) := by
  refine ⟨cubesKeydown_digit s n h1 h9, createCubes_cubes_length s n,
    createCubes_removes_old s n hid, createCubes_fresh s n,
    (jsGridSize_spec n h1).1, (jsGridSize_spec n h1).2, ?_⟩
  intro i hi
  rw [createCubes_cubes_get s n i hi]
  exact ⟨rfl, rfl, rfl⟩

/-- Closed instance of `c9_create_cubes_grid`: pressing `4` after the
demo's initial `createCubes(1)`. -/
theorem c9_create_cubes_grid_witness :
    (1 ≤ 4 ∧ 4 ≤ 9 ∧ ∀ c ∈ sampleCubes.cubes, c.id < sampleCubes.nextId) ∧
    cubesKeydown sampleCubes (Nat.repr 4) = createCubes sampleCubes 4 ∧
    (createCubes sampleCubes 4).cubes.length = 4 ∧
    4 ≤ jsGridSize 4 * jsGridSize 4 ∧
    (jsGridSize 4 - 1) * (jsGridSize 4 - 1) < 4 ∧
    (createCubes sampleCubes 4).cubes.get
      ⟨2, by rw [createCubes_cubes_length]; omega⟩ = mkCube sampleCubes 4 2 := by
  have h := c9_create_cubes_grid sampleCubes 4 (by omega) (by omega) (by decide)
  exact ⟨⟨by omega, by omega, by decide⟩, h.1, h.2.1,
    h.2.2.2.2.1, h.2.2.2.2.2.1,
    (h.2.2.2.2.2.2 2 (by rw [createCubes_cubes_length]; omega)).1⟩

lemma specialStep_cooldown_lb (s : SpecialState) (p : Bool) (dt : ℚ) (h : 0 ≤ dt) :
    s.cooldown - dt ≤ (specialStep s p dt).1.cooldown := by
  simp only [specialStep]
  by_cases hcd : s.cooldown > 0
  · rw [if_pos hcd]
    by_cases hf : (p && !s.pressedPrev && decide (s.cooldown - dt ≤ 0)) = true
    · rw [if_pos hf]
      simp only [Bool.and_eq_true, decide_eq_true_eq] at hf
      have := hf.2
      simp only
      linarith
    · rw [if_neg hf]
  · rw [if_neg hcd]
    push_neg at hcd
    by_cases hf : (p && !s.pressedPrev && decide (s.cooldown ≤ 0)) = true
    · rw [if_pos hf]
      simp only
      linarith
    · rw [if_neg hf]
      simp only
      linarith

lemma specialFires_getD_sum : ∀ (L : List (Bool × ℚ)) (s : SpecialState) (k : Nat),
    (∀ x ∈ L, 0 ≤ x.2) → (specialFires s L).getD k false = true →
    s.cooldown ≤ ((L.take (k + 1)).map (fun x => x.2)).sum := by
  intro L
  induction L with
  | nil =>
    intro s k _ hfire
    simp [specialFires] at hfire
  | cons a rest ih =>
    intro s k hpos hfire
    rcases a with ⟨p, dt⟩
    have hdt : 0 ≤ dt := hpos (p, dt) (by simp)
    cases k with
    | zero =>
      simp only [List.take_succ_cons, List.take_zero, List.map_cons, List.map_nil,
        List.sum_cons, List.sum_nil, add_zero]
      simp only [specialFires, List.getD_cons_zero] at hfire
      revert hfire
      simp only [specialStep]
      by_cases hcd : s.cooldown > 0
      · rw [if_pos hcd]
        by_cases hf : (p && !s.pressedPrev && decide (s.cooldown - dt ≤ 0)) = true
        · intro _
          simp only [Bool.and_eq_true, decide_eq_true_eq] at hf
          linarith [hf.2]
        · rw [if_neg hf]
          intro hfire
          simp at hfire
      · push_neg at hcd
        intro _
        linarith
    | succ k =>
      simp only [specialFires, List.getD_cons_succ] at hfire
      have hrest := ih (specialStep s p dt).1 k (fun x hx => hpos x (by simp [hx])) hfire
      have hlb := specialStep_cooldown_lb s p dt hdt
      simp only [List.take_succ_cons, List.map_cons, List.sum_cons]
      linarith

/-- C7: the special ability fires only on a fresh key press (pressed now,
not pressed on the previous frame) with the cooldown at or below zero after
this frame's decrement, and firing resets the cooldown to 1 second; hence,
starting from a just-fired state (`cooldown = 1`), any later firing at frame
index `k` requires the elapsed frame times of frames `0..k` to sum to at
least 1 second.  The boy's lightning (`KeyX` / `lightningCooldown`) and the
girl's fireball (`KeyU` / `fireballCooldown`) are both instances of this
state machine with the same constants. -/
theorem c7_special_cooldown :
    (∀ (s : SpecialState) (p : Bool) (dt : ℚ), (specialStep s p dt).2 = true →
      p = true ∧ s.pressedPrev = false ∧
      (if s.cooldown > 0 then s.cooldown - dt else s.cooldown) ≤ 0 ∧
      (specialStep s p dt).1.cooldown = 1) ∧
    (∀ (s : SpecialState) (L : List (Bool × ℚ)) (k : Nat), s.cooldown = 1 →
      (∀ x ∈ L, 0 ≤ x.2) → (specialFires s L).getD k false = true →
      1 ≤ ((L.take (k + 1)).map (fun x => x.2)).sum) := by
  constructor
  · intro s p dt hf
    revert hf
    simp only [specialStep]
    by_cases hfc : (p && !s.pressedPrev &&
        decide ((if s.cooldown > 0 then s.cooldown - dt else s.cooldown) ≤ 0)) = true
    · rw [if_pos hfc]
      intro _
      simp only [Bool.and_eq_true, Bool.not_eq_true', decide_eq_true_eq] at hfc
      exact ⟨hfc.1.1, hfc.1.2, hfc.2, rfl⟩
    · rw [if_neg hfc]
      intro hf
      simp at hf
  · intro s L k h1 hpos hfire
    have h := specialFires_getD_sum L s k hpos hfire
    rw [h1] at h
    exact h

/-- Closed instance of `c7_special_cooldown`: a fresh press with the
cooldown expired fires and resets the cooldown, and after a firing the next
fire (two frames later) took frame times summing to `3 ≥ 1`. -/
theorem c7_special_cooldown_witness :
    ((specialStep { cooldown := 0, pressedPrev := false } true 1).2 = true ∧
      (specialStep { cooldown := 0, pressedPrev := false } true 1).1.cooldown = 1) ∧
    (({ cooldown := 1, pressedPrev := false } : SpecialState).cooldown = 1 ∧
      (∀ x ∈ [(false, (1:ℚ)), (true, 2)], 0 ≤ x.2) ∧
      (specialFires { cooldown := 1, pressedPrev := false }
        [(false, (1:ℚ)), (true, 2)]).getD 1 false = true ∧
      1 ≤ (([(false, (1:ℚ)), (true, 2)].take 2).map (fun x => x.2)).sum) := by
  have hc7 := c7_special_cooldown
  have hstep : (specialStep { cooldown := 0, pressedPrev := false } true 1).2 = true := by
    norm_num [specialStep]
  have htrace : (specialFires { cooldown := 1, pressedPrev := false }
      [(false, (1:ℚ)), (true, 2)]).getD 1 false = true := by
    norm_num [specialFires, specialStep]
  have hposs : ∀ x ∈ [(false, (1:ℚ)), (true, 2)], 0 ≤ x.2 := by
    intro x hx
    simp only [List.mem_cons, List.not_mem_nil, or_false] at hx
    rcases hx with rfl | rfl <;> norm_num
  refine ⟨⟨hstep, (hc7.1 _ true 1 hstep).2.2.2⟩, rfl, hposs, htrace,
    hc7.2 { cooldown := 1, pressedPrev := false } [(false, (1:ℚ)), (true, 2)] 1 rfl
      hposs htrace⟩

lemma bowStep_progress (s : BowState) (h : s.t < bowTime + upTime) :
    (bowStep s).t = s.t + 1/60 ∧
    (bowStep s).callbackRuns = s.callbackRuns ∧
    (bowStep s).torso1.isSome = s.torso1.isSome ∧
    (bowStep s).torso2.isSome = s.torso2.isSome ∧
    (bowStep s).head1.isSome = s.head1.isSome ∧
    (bowStep s).head2.isSome = s.head2.isSome := by
  simp only [bowStep]
  by_cases h1 : s.t < bowTime
  · rw [if_pos h1]
    simp
  · rw [if_neg h1, if_pos h]
    simp

lemma bowStep_final (s : BowState) (h : ¬ s.t < bowTime) (h2 : ¬ s.t < bowTime + upTime) :
    bowStep s =
      { s with
          torso1 := s.torso1.map (fun _ => 0)
          torso2 := s.torso2.map (fun _ => 0)
          head1 := s.head1.map (fun _ => 0)
          head2 := s.head2.map (fun _ => 0)
          boyRotY2 := if s.girlPosX > s.boyPosX then 1 else -1
          girlRotY2 := if s.boyPosX > s.girlPosX then 1 else -1
          callbackRuns := s.callbackRuns + 1 } := by
  simp only [bowStep]
  rw [if_neg h, if_neg h2]

lemma bowRun_invariant (p1 p2 p3 p4 : Bool) :
    ∀ k, k ≤ 72 →
      (bowStep^[k] (bowInit p1 p2 p3 p4)).t = (k : ℚ) / 60 ∧
      (bowStep^[k] (bowInit p1 p2 p3 p4)).callbackRuns = 0 ∧
      (bowStep^[k] (bowInit p1 p2 p3 p4)).torso1.isSome = p1 ∧
      (bowStep^[k] (bowInit p1 p2 p3 p4)).torso2.isSome = p2 ∧
      (bowStep^[k] (bowInit p1 p2 p3 p4)).head1.isSome = p3 ∧
      (bowStep^[k] (bowInit p1 p2 p3 p4)).head2.isSome = p4 := by
  intro k
  induction k with
  | zero =>
    intro _
    refine ⟨by norm_num [bowInit], by simp [bowInit], ?_, ?_, ?_, ?_⟩
    · cases p1 <;> simp [bowInit]
    · cases p2 <;> simp [bowInit]
    · cases p3 <;> simp [bowInit]
    · cases p4 <;> simp [bowInit]
  | succ k ih =>
    intro hk
    obtain ⟨ht, hcb, h1, h2, h3, h4⟩ := ih (by omega)
    have hcast : (k : ℚ) ≤ 71 := by exact_mod_cast (by omega : k ≤ 71)
    have hlt : (bowStep^[k] (bowInit p1 p2 p3 p4)).t < bowTime + upTime := by
      rw [ht]
      simp only [bowTime, upTime]
      linarith
    obtain ⟨pt, pcb, q1, q2, q3, q4⟩ := bowStep_progress _ hlt
    rw [Function.iterate_succ_apply']
    refine ⟨?_, by rw [pcb, hcb], by rw [q1, h1], by rw [q2, h2], by rw [q3, h3],
      by rw [q4, h4]⟩
    rw [pt, ht]
    push_cast
    ring

/-- C5: `bowFighters` tolerates any subset of the four named-object lookups
(`torso` / `head` on each character) returning `null`: the absent objects
are simply never written (they stay `none`), the present ones are animated
and restored to rest (`some 0`), the animation completes — after the 73rd
fixed-`dt` tick the completion branch has run — and the callback is invoked,
all without any error (the step function is total). -/
theorem c5_bow_silent_on_missing (p1 p2 p3 p4 : Bool) :
    (bowStep^[73] (bowInit p1 p2 p3 p4)).callbackRuns = 1 ∧
    (bowStep^[73] (bowInit p1 p2 p3 p4)).torso1 = (if p1 then some 0 else none) ∧
    (bowStep^[73] (bowInit p1 p2 p3 p4)).torso2 = (if p2 then some 0 else none) ∧
    (bowStep^[73] (bowInit p1 p2 p3 p4)).head1 = (if p3 then some 0 else none) ∧
    (bowStep^[73] (bowInit p1 p2 p3 p4)).head2 = (if p4 then some 0 else none) := by
  obtain ⟨ht, hcb, h1, h2, h3, h4⟩ := bowRun_invariant p1 p2 p3 p4 72 le_rfl
  have h73 : (73 : Nat) = 72 + 1 := rfl
  rw [h73, Function.iterate_succ_apply']
  have hb1 : ¬ ((bowStep^[72] (bowInit p1 p2 p3 p4)).t < bowTime) := by
    rw [ht]
    norm_num [bowTime]
  have hb2 : ¬ ((bowStep^[72] (bowInit p1 p2 p3 p4)).t < bowTime + upTime) := by
    rw [ht]
    norm_num [bowTime, upTime]
  rw [bowStep_final _ hb1 hb2]
  refine ⟨?_, ?_, ?_, ?_, ?_⟩
  · dsimp only
    rw [hcb]
  · cases hopt : (bowStep^[72] (bowInit p1 p2 p3 p4)).torso1 with
    | none =>
      rw [← h1, hopt]
      rfl
    | some v =>
      rw [← h1, hopt]
      rfl
  · cases hopt : (bowStep^[72] (bowInit p1 p2 p3 p4)).torso2 with
    | none =>
      rw [← h2, hopt]
      rfl
    | some v =>
      rw [← h2, hopt]
      rfl
  · cases hopt : (bowStep^[72] (bowInit p1 p2 p3 p4)).head1 with
    | none =>
      rw [← h3, hopt]
      rfl
    | some v =>
      rw [← h3, hopt]
      rfl
  · cases hopt : (bowStep^[72] (bowInit p1 p2 p3 p4)).head2 with
    | none =>
      rw [← h4, hopt]
      rfl
    | some v =>
      rw [← h4, hopt]
      rfl

/-- Closed instance of `c5_bow_silent_on_missing`: the boy's torso lookup
and the girl's head lookup fail, the other two succeed. -/
theorem c5_bow_silent_on_missing_witness :
    (bowStep^[73] (bowInit false true true false)).callbackRuns = 1 ∧
    (bowStep^[73] (bowInit false true true false)).torso1 = none ∧
    (bowStep^[73] (bowInit false true true false)).torso2 = some 0 ∧
    (bowStep^[73] (bowInit false true true false)).head1 = some 0 ∧
    (bowStep^[73] (bowInit false true true false)).head2 = none := by
  have h := c5_bow_silent_on_missing false true true false
  simp only [if_true, if_false] at h
  exact h

end Games
